import Mathlib

set_option maxRecDepth 8000

/-!
Shallow embedding of the qualys-mcp server core (src/index.ts): the form
encoder, the rate limiter, the response normalizer, the error classifier,
the connection manager, the credential check and the tool-dispatch switch.
Machine integers are modelled as Int or Nat; JavaScript scalar values as an
explicit sum type; the singleton module state as explicit state passing.
-/

/-- JavaScript scalar values flowing through the tool-argument map and the
form encoder: the TypeScript type `string | number | boolean | undefined`. -/
inductive JsVal where
  | undef : JsVal
  | str : String → JsVal
  | num : Int → JsVal
  | bool : Bool → JsVal
deriving DecidableEq, Repr

/-- JavaScript truthiness of a `JsVal`: `undefined` is falsy, a string is
truthy iff non-empty, a number is truthy iff non-zero, a boolean is itself. -/
def truthy : JsVal → Bool
  | JsVal.undef => false
  | JsVal.str s => decide (s ≠ "")
  | JsVal.num n => decide (n ≠ 0)
  | JsVal.bool b => b

/-- JavaScript string coercion `String(value)` on the scalar values used by
the handlers (integral numbers render in decimal). -/
def jsString : JsVal → String
  | JsVal.undef => "undefined"
  | JsVal.str s => s
  | JsVal.num n => toString n
  | JsVal.bool b => if b then "true" else "false"

/-- JavaScript `a || b`: `b` when `a` is falsy, otherwise `a`.  The handlers
use this for argument defaults such as `args.truncation_limit as number || 100`. -/
def jsOr (a b : JsVal) : JsVal :=
  if truthy a then a else b

/-- The untyped argument bag `args: Record<string, unknown>` handed to
`handleToolCall`, restricted to the scalar values the handlers read. -/
abbrev Args := List (String × JsVal)

/-- Reading `args.k`: the stored value when the key is present, otherwise
`undefined`. -/
def getArg (args : Args) (k : String) : JsVal :=
  match args.lookup k with
  | some v => v
  | none => JsVal.undef

/-- UTF-8 byte sequence of a character (JavaScript strings are percent-encoded
byte-wise over their UTF-8 encoding). -/
def utf8Bytes (c : Char) : List Nat :=
  let n := c.toNat
  if n < 128 then [n]
  else if n < 2048 then [192 + n / 64, 128 + n % 64]
  else if n < 65536 then [224 + n / 4096, 128 + (n / 64) % 64, 128 + n % 64]
  else [240 + n / 262144, 128 + (n / 4096) % 64, 128 + (n / 64) % 64, 128 + n % 64]

/-- UTF-8 bytes of a whole string. -/
def stringBytes (s : String) : List Nat :=
  (s.data.map utf8Bytes).flatten

/-- The bytes `encodeURIComponent` leaves unescaped: ASCII letters, digits,
and `- _ . ! ~ * apostrophe ( )` (codes 45 46 95 126 33 42 39 40 41). -/
def isUnreservedByte (n : Nat) : Bool :=
  (48 ≤ n && n ≤ 57) || (65 ≤ n && n ≤ 90) || (97 ≤ n && n ≤ 122) ||
  n == 45 || n == 46 || n == 95 || n == 126 ||
  n == 33 || n == 42 || n == 39 || n == 40 || n == 41

/-- Uppercase hexadecimal digit character, as `encodeURIComponent` emits. -/
def hexDigitUpper (n : Nat) : Char :=
  if n < 10 then Char.ofNat (48 + n) else Char.ofNat (55 + n)

/-- Percent-encoding of one byte: kept verbatim when unreserved, otherwise
rendered `%XX` with uppercase hexadecimal. -/
def encodeByte (n : Nat) : List Char :=
  if isUnreservedByte n then [Char.ofNat n]
  else [Char.ofNat 37, hexDigitUpper (n / 16), hexDigitUpper (n % 16)]

/-- JavaScript `encodeURIComponent`. -/
def encodeURIComponent (s : String) : String :=
  String.mk ((stringBytes s).map encodeByte).flatten

/-- JavaScript `Array.prototype.join(sep)` on a list of strings. -/
def jsJoin (sep : String) : List String → String
  | [] => ""
  | [x] => x
  | x :: y :: rest => x ++ sep ++ jsJoin sep (y :: rest)

/-- `buildFormData` (src/index.ts lines 113-118): `Object.entries(params)`
filtered by `value !== undefined && value !== ""`, each survivor rendered
`encodeURIComponent(key)=encodeURIComponent(String(value))`, joined with `&`. -/
def buildFormData (params : List (String × JsVal)) : String :=
  jsJoin "&"
    ((params.filter
        (fun kv => decide (kv.2 ≠ JsVal.undef) && decide (kv.2 ≠ JsVal.str ""))).map
      (fun kv => encodeURIComponent kv.1 ++ "=" ++ encodeURIComponent (jsString kv.2)))

/-- Spec-side rendition of the Form Encoder rule, following the spec words:
entries with value `undefined` or `""` are dropped, each remaining entry is
rendered `percentEncode(key) + "=" + percentEncode(stringify(value))`, and the
rendered entries are joined with `&` in the insertion order of the input. -/
def specFormEntries : List (String × JsVal) → List String
  | [] => []
  | (k, v) :: rest =>
    if v = JsVal.undef ∨ v = JsVal.str "" then specFormEntries rest
    else (encodeURIComponent k ++ "=" ++ encodeURIComponent (jsString v)) :: specFormEntries rest

/-- Spec-side rendition of the whole Form Encoder contract. -/
def specFormEncode (params : List (String × JsVal)) : String :=
  jsJoin "&" (specFormEntries params)

/-- JSON-like structured values: the result type of the response normalizer
and the `response.data` payload carried by an HTTP failure. -/
inductive Json where
  | nul : Json
  | bool : Bool → Json
  | num : Int → Json
  | str : String → Json
  | arr : List Json → Json
  | obj : List (String × Json) → Json

/-- Lowercase hexadecimal digit character (JSON control-character escapes). -/
def hexDigitLower (n : Nat) : Char :=
  if n < 10 then Char.ofNat (48 + n) else Char.ofNat (87 + n)

/-- `JSON.stringify` escaping of one character inside a string literal. -/
def jsonEscapeChar (c : Char) : String :=
  if c = Char.ofNat 34 then "\\\""
  else if c = Char.ofNat 92 then "\\\\"
  else if c = Char.ofNat 8 then "\\b"
  else if c = Char.ofNat 9 then "\\t"
  else if c = Char.ofNat 10 then "\\n"
  else if c = Char.ofNat 12 then "\\f"
  else if c = Char.ofNat 13 then "\\r"
  else if c.toNat < 32 then
    "\\u00" ++ String.mk [hexDigitLower (c.toNat / 16), hexDigitLower (c.toNat % 16)]
  else String.singleton c

/-- `JSON.stringify` rendering of a string literal. -/
def jsonQuote (s : String) : String :=
  "\"" ++ String.join (s.data.map jsonEscapeChar) ++ "\""

mutual

/-- `JSON.stringify` (no indentation), as `handleApiError` applies it to
`error.response.data`. -/
def Json.stringify : Json → String
  | Json.nul => "null"
  | Json.bool b => if b then "true" else "false"
  | Json.num n => toString n
  | Json.str s => jsonQuote s
  | Json.arr xs => "[" ++ stringifyItems xs ++ "]"
  | Json.obj fs => "\x7b" ++ stringifyFields fs ++ "\x7d"

/-- Comma-joined array items of `JSON.stringify`. -/
def stringifyItems : List Json → String
  | [] => ""
  | [x] => Json.stringify x
  | x :: y :: rest => Json.stringify x ++ "," ++ stringifyItems (y :: rest)

/-- Comma-joined object fields of `JSON.stringify`. -/
def stringifyFields : List (String × Json) → String
  | [] => ""
  | [(k, v)] => jsonQuote k ++ ":" ++ Json.stringify v
  | (k, v) :: f :: rest => jsonQuote k ++ ":" ++ Json.stringify v ++ "," ++ stringifyFields (f :: rest)

end

/-- Name characters accepted by the modelled markup parser. -/
def isNameChar (c : Char) : Bool :=
  c.isAlpha || c.isDigit || c = Char.ofNat 95

/-- Longest leading run of name characters, with the remainder. -/
def takeName : List Char → List Char × List Char
  | [] => ([], [])
  | c :: cs =>
    if isNameChar c then
      let p := takeName cs
      (c :: p.1, p.2)
    else ([], c :: cs)

/-- Longest leading run of text characters (up to the next angle bracket),
with the remainder. -/
def takeText : List Char → List Char × List Char
  | [] => ([], [])
  | c :: cs =>
    if c = Char.ofNat 60 then ([], c :: cs)
    else
      let p := takeText cs
      (c :: p.1, p.2)

/-- Modelled from the spec: the markup parser called by `parseXmlResponse`
(the external xml2js `parseStringPromise` with `explicitArray: false`,
`mergeAttrs: true`) is not part of the source of this repository.  Following the
Response Normalizer contract of the spec — a markup parse in which a single child
element is represented as a scalar rather than a one-element sequence — this
models its behaviour on attribute-free single-element documents: the
well-formed document `<name>text</name>` parses to an object mapping `name`
to the text scalar, and any other input fails to parse. -/
def specXmlParse (s : String) : Option Json :=
  match s.data with
  | [] => none
  | c :: cs =>
    if c = Char.ofNat 60 then
      let p1 := takeName cs
      match p1.1, p1.2 with
      | [], _ => none
      | _ :: _, gt :: r2 =>
        if gt = Char.ofNat 62 then
          let p2 := takeText r2
          match p2.2 with
          | lt2 :: sl :: r4 =>
            if lt2 = Char.ofNat 60 && sl = Char.ofNat 47 then
              let p3 := takeName r4
              match p3.2 with
              | [gt2] =>
                if gt2 = Char.ofNat 62 && decide (p3.1 = p1.1) then
                  some (Json.obj [(String.mk p1.1, Json.str (String.mk p2.1))])
                else none
              | _ => none
            else none
          | _ => none
        else none
      | _ :: _, [] => none
    else none

/-- `parseXmlResponse` (src/index.ts lines 86-96): try the markup parse; on
failure, instead of raising, return the envelope `{raw: xml}` carrying the
original text.  Totality of this Lean function is the "never raises" clause. -/
def parseXmlResponse (xml : String) : Json :=
  match specXmlParse xml with
  | some v => v
  | none => Json.obj [("raw", Json.str xml)]

/-- Shape test a caller can run on a normalizer result: is it an object with
the single field `raw` holding a string, i.e. shaped like the fallback
envelope? -/
def isRawEnvelope : Json → Bool
  | Json.obj [(k, Json.str _)] => decide (k = "raw")
  | _ => false

/-- The `error.response` object carried by an axios failure: HTTP status code,
status text and the (already decoded) response body. -/
structure HttpResponse where
  status : Nat
  statusText : String
  data : Json

/-- A JavaScript failure value reaching `handleApiError`: either an
`AxiosError` (with an optional upstream response, an optional transport error
code such as `ECONNREFUSED`, and a message), or any other thrown value,
represented by its `String(error)` coercion. -/
inductive JsFailure where
  | axios : Option HttpResponse → Option String → String → JsFailure
  | other : String → JsFailure

/-- `handleApiError` (src/index.ts lines 99-110): the decision table of the error classifier, in source order — response-carrying axios failure, then
`ECONNREFUSED`, then other axios failures, then everything else. -/
def handleApiError : JsFailure → String
  | JsFailure.axios resp code msg =>
    match resp with
    | some r =>
      "API Error: " ++ toString r.status ++ " - " ++ r.statusText ++ ". " ++ Json.stringify r.data
    | none =>
      if code = some "ECONNREFUSED" then
        "Connection refused. Check your QUALYS_API_URL configuration."
      else
        "Request Error: " ++ msg
  | JsFailure.other s => "Unknown Error: " ++ s

/-- `RATE_LIMIT_DELAY_MS` (src/index.ts line 21). -/
def RATE_LIMIT_DELAY_MS : Int := 1000

/-- The start time of the dispatch performed by one `rateLimitedRequest` call
that read the shared `lastRequestTime` value `last` at wall-clock time `now`
(times in milliseconds): when `now - lastRequestTime` is below the minimum
delay the caller sleeps for the difference and dispatches on resume, else it
dispatches immediately. -/
def dispatchStart (last now : Int) : Int :=
  if now - last < RATE_LIMIT_DELAY_MS then now + (RATE_LIMIT_DELAY_MS - (now - last)) else now

/-- Start times of `n` `rateLimitedRequest` calls all issued back-to-back in
one event-loop tick at time `now`, with shared `lastRequestTime = last`.
Faithful to src/index.ts lines 73-83: a caller that needs no delay runs lines
74-82 synchronously, so it writes `lastRequestTime` before the next caller
reads it; a caller that must sleep suspends at the `setTimeout` on line 78 and
only writes `lastRequestTime` (line 81) after resuming, so every later caller
in the same tick still reads the old value. -/
def sameTickStarts : Int → Int → Nat → List Int
  | _, _, 0 => []
  | last, now, n + 1 =>
    if now - last < RATE_LIMIT_DELAY_MS then
      (now + (RATE_LIMIT_DELAY_MS - (now - last))) :: sameTickStarts last now n
    else
      now :: sameTickStarts now now n

/-- Does every pair of consecutive start times in the list keep the minimum
1000 ms spacing the rate limiter promises? -/
def minGapOK : List Int → Bool
  | x :: y :: rest => decide (RATE_LIMIT_DELAY_MS ≤ y - x) && minGapOK (y :: rest)
  | _ => true

/-- The configuration surface read at module load (src/index.ts lines 16-18):
`QUALYS_API_URL`, `QUALYS_USERNAME`, `QUALYS_PASSWORD`. -/
structure Config where
  apiUrl : String
  username : String
  password : String

/-- Connection-pool settings of the `http.Agent`/`https.Agent` constructed at
module load (src/index.ts lines 29-41). -/
structure AgentConfig where
  keepAlive : Bool
  keepAliveMsecs : Nat
  maxSockets : Nat
  maxFreeSockets : Nat
deriving DecidableEq

/-- The `httpAgent` constant (src/index.ts lines 29-34). -/
def httpAgent : AgentConfig := ⟨true, 30000, 10, 5⟩

/-- The `httpsAgent` constant (src/index.ts lines 36-41). -/
def httpsAgent : AgentConfig := ⟨true, 30000, 10, 5⟩

/-- Base64 alphabet character of a 6-bit value. -/
def base64Char (n : Nat) : Char :=
  if n < 26 then Char.ofNat (65 + n)
  else if n < 52 then Char.ofNat (97 + (n - 26))
  else if n < 62 then Char.ofNat (48 + (n - 52))
  else if n = 62 then Char.ofNat 43
  else Char.ofNat 47

/-- Standard base64 encoding of a byte list with `=` padding, as
`Buffer.from(s).toString("base64")` produces. -/
def base64Encode : List Nat → String
  | [] => ""
  | [a] =>
    String.mk [base64Char (a / 4), base64Char (a % 4 * 16)] ++ "=="
  | [a, b] =>
    String.mk [base64Char (a / 4), base64Char (a % 4 * 16 + b / 16), base64Char (b % 16 * 4)] ++ "="
  | a :: b :: c :: rest =>
    String.mk [base64Char (a / 4), base64Char (a % 4 * 16 + b / 16),
               base64Char (b % 16 * 4 + c / 64), base64Char (c % 64)] ++ base64Encode rest

/-- The Basic credential digest computed on src/index.ts line 52:
`Basic base64(username:password)`. -/
def basicAuthHeader (u p : String) : String :=
  "Basic " ++ base64Encode (stringBytes (u ++ ":" ++ p))

/-- The axios client configuration built by `getApiClient` (src/index.ts
lines 56-67): base URL, default headers, timeout and the pooled agents. -/
structure ClientConfig where
  baseURL : String
  authorization : String
  xRequestedWith : String
  contentType : String
  timeoutMs : Nat
  httpAgentCfg : AgentConfig
  httpsAgentCfg : AgentConfig
deriving DecidableEq

/-- The module-level singleton state (src/index.ts lines 25-26):
`let apiClient: AxiosInstance | null` and `let cachedAuthHeader: string | null`. -/
structure ConnState where
  apiClient : Option ClientConfig
  cachedAuthHeader : Option String
deriving DecidableEq

/-- The state at module load: both singletons null. -/
def initialConnState : ConnState := ⟨none, none⟩

/-- `getApiClient` (src/index.ts lines 44-70) as an explicit state transition:
return the cached client if present; otherwise compute the auth header (only
when not already cached and both credentials are non-empty), construct the
client and cache both. -/
def getApiClient (cfg : Config) (s : ConnState) : ClientConfig × ConnState :=
  match s.apiClient with
  | some c => (c, s)
  | none =>
    let auth : Option String :=
      match s.cachedAuthHeader with
      | some h => some h
      | none =>
        if cfg.username ≠ "" ∧ cfg.password ≠ "" then
          some (basicAuthHeader cfg.username cfg.password)
        else none
    let client : ClientConfig :=
      { baseURL := cfg.apiUrl
        authorization := auth.getD ""
        xRequestedWith := "qualys-mcp"
        contentType := "application/x-www-form-urlencoded"
        timeoutMs := 120000
        httpAgentCfg := httpAgent
        httpsAgentCfg := httpsAgent }
    (client, ⟨some client, auth⟩)

/-- The fixed remediation text returned by `checkCredentials`
(src/index.ts lines 603-606). -/
def credMsg : String :=
  "Qualys credentials not configured. Please set the following environment variables:\n" ++
  "  - QUALYS_USERNAME: Your Qualys username\n" ++
  "  - QUALYS_PASSWORD: Your Qualys password\n" ++
  "  - QUALYS_API_URL: (optional) Your Qualys API URL (defaults to https://qualysapi.qualys.com)"

/-- `checkCredentials` (src/index.ts lines 601-609): the error text when the
configured username or password is empty (falsy), otherwise null. -/
def checkCredentials (cfg : Config) : Option String :=
  if cfg.username = "" ∨ cfg.password = "" then some credMsg else none

/-- How the dispatcher consumes the body of a successful network response:
XML normalization, a `{data: ...}` envelope, the binary report-metadata
summary, or the raw body passed through untouched. -/
inductive RespMode where
  | parseXml : RespMode
  | dataEnvelope : RespMode
  | binaryReport : RespMode
  | rawPassthrough : RespMode
deriving DecidableEq, Repr

/-- The observable outcome of `handleToolCall` up to (and excluding) the
network transmission itself: an early configuration-error return, a local
validation error thrown and caught inside the handler, a single outbound
request (path, encoded body, effective Content-Type, response handling), or
the unknown-tool error of the default branch. -/
inductive DispatchOutcome where
  | configError : String → DispatchOutcome
  | validationError : String → DispatchOutcome
  | request : String → String → String → RespMode → DispatchOutcome
  | unknownTool : String → DispatchOutcome
deriving DecidableEq, Repr

/-- Number of outbound network calls the outcome performs: exactly one for a
dispatched request, zero for every error path. -/
def netCalls : DispatchOutcome → Nat
  | DispatchOutcome.request _ _ _ _ => 1
  | _ => 0

/-- The textual protocol reply produced for the non-network outcomes
(src/index.ts lines 618-627 and 971-981): a configuration error is returned
as `Error: <message>`; a thrown `Error` is caught, classified by
`handleApiError` as an unknown error whose `String(error)` coercion is
`Error: <message>`, and wrapped as `Error: ...` again. -/
def outcomeText : DispatchOutcome → Option String
  | DispatchOutcome.configError m => some ("Error: " ++ m)
  | DispatchOutcome.validationError m => some ("Error: Unknown Error: Error: " ++ m)
  | DispatchOutcome.unknownTool n => some ("Error: Unknown Error: Error: Unknown tool: " ++ n)
  | DispatchOutcome.request _ _ _ _ => none

/-- The default Content-Type header of the pooled client (src/index.ts line 61). -/
def formContentType : String := "application/x-www-form-urlencoded"

/-- The `switch (name)` of `handleToolCall` (src/index.ts lines 635-961),
reached after the credential check: per-operation required-argument checks
(JavaScript truthiness), parameter objects in their source insertion order,
`buildFormData`, and the target path of each `client.post`.  `dc` abstracts
the wall-clock date computation of the `qualys_get_knowledgebase_by_cve`
case (lines 887-889): the `YYYY-MM-DD` rendering of today minus the given
`last_modified_within_days` value. -/
def routeToolCall (dc : JsVal → String) (name : String) (args : Args) : DispatchOutcome :=
  if name = "qualys_list_hosts" then
    DispatchOutcome.request "/api/2.0/fo/asset/host/"
      (buildFormData
        [("action", JsVal.str "list"),
         ("ips", getArg args "ips"),
         ("ag_ids", getArg args "ag_ids"),
         ("ag_titles", getArg args "ag_titles"),
         ("truncation_limit", jsOr (getArg args "truncation_limit") (JsVal.num 100)),
         ("details", jsOr (getArg args "details") (JsVal.str "Basic"))])
      formContentType RespMode.parseXml
  else if name = "qualys_get_host_detections" then
    DispatchOutcome.request "/api/2.0/fo/asset/host/vm/detection/"
      (buildFormData
        [("action", JsVal.str "list"),
         ("ips", getArg args "ips"),
         ("ids", getArg args "ids"),
         ("ag_ids", getArg args "ag_ids"),
         ("status", getArg args "status"),
         ("severities", getArg args "severities"),
         ("qids", getArg args "qids"),
         ("truncation_limit", jsOr (getArg args "truncation_limit") (JsVal.num 100)),
         ("show_igs", if truthy (getArg args "show_igs") then JsVal.str "1" else JsVal.str "0"),
         ("include_vuln_type", getArg args "include_vuln_type"),
         ("arf_filter_keys", getArg args "arf_filter_keys"),
         ("show_epss", if truthy (getArg args "show_epss") then JsVal.str "1" else JsVal.str "0")])
      formContentType RespMode.parseXml
  else if name = "qualys_launch_scan" then
    if ¬ truthy (getArg args "scan_title") then
      DispatchOutcome.validationError "scan_title is required"
    else if ¬ truthy (getArg args "ip") ∧ ¬ truthy (getArg args "asset_groups")
        ∧ ¬ truthy (getArg args "asset_group_ids") then
      DispatchOutcome.validationError "At least one of ip, asset_groups, or asset_group_ids is required"
    else
      DispatchOutcome.request "/api/2.0/fo/scan/"
        (buildFormData
          [("action", JsVal.str "launch"),
           ("scan_title", getArg args "scan_title"),
           ("ip", getArg args "ip"),
           ("asset_groups", getArg args "asset_groups"),
           ("asset_group_ids", getArg args "asset_group_ids"),
           ("option_title", getArg args "option_title"),
           ("option_id", getArg args "option_id"),
           ("iscanner_name", getArg args "iscanner_name"),
           ("priority", getArg args "priority")])
        formContentType RespMode.parseXml
  else if name = "qualys_list_scans" then
    DispatchOutcome.request "/api/2.0/fo/scan/"
      (buildFormData
        [("action", JsVal.str "list"),
         ("scan_ref", getArg args "scan_ref"),
         ("state", getArg args "state"),
         ("type", getArg args "type"),
         ("launched_after_datetime", getArg args "launched_after_datetime"),
         ("launched_before_datetime", getArg args "launched_before_datetime")])
      formContentType RespMode.parseXml
  else if name = "qualys_get_scan_results" then
    if ¬ truthy (getArg args "scan_ref") then
      DispatchOutcome.validationError "scan_ref is required"
    else
      DispatchOutcome.request "/api/2.0/fo/scan/"
        (buildFormData
          [("action", JsVal.str "fetch"),
           ("scan_ref", getArg args "scan_ref"),
           ("output_format", jsOr (getArg args "output_format") (JsVal.str "xml"))])
        formContentType
        (if getArg args "output_format" = JsVal.str "xml" ∨ ¬ truthy (getArg args "output_format")
         then RespMode.parseXml else RespMode.dataEnvelope)
  else if name = "qualys_cancel_scan" then
    if ¬ truthy (getArg args "scan_ref") then
      DispatchOutcome.validationError "scan_ref is required"
    else
      DispatchOutcome.request "/api/2.0/fo/scan/"
        (buildFormData
          [("action", JsVal.str "cancel"), ("scan_ref", getArg args "scan_ref")])
        formContentType RespMode.parseXml
  else if name = "qualys_pause_scan" then
    if ¬ truthy (getArg args "scan_ref") then
      DispatchOutcome.validationError "scan_ref is required"
    else
      DispatchOutcome.request "/api/2.0/fo/scan/"
        (buildFormData
          [("action", JsVal.str "pause"), ("scan_ref", getArg args "scan_ref")])
        formContentType RespMode.parseXml
  else if name = "qualys_resume_scan" then
    if ¬ truthy (getArg args "scan_ref") then
      DispatchOutcome.validationError "scan_ref is required"
    else
      DispatchOutcome.request "/api/2.0/fo/scan/"
        (buildFormData
          [("action", JsVal.str "resume"), ("scan_ref", getArg args "scan_ref")])
        formContentType RespMode.parseXml
  else if name = "qualys_list_reports" then
    DispatchOutcome.request "/api/2.0/fo/report/"
      (buildFormData
        [("action", JsVal.str "list"),
         ("id", getArg args "id"),
         ("state", getArg args "state")])
      formContentType RespMode.parseXml
  else if name = "qualys_launch_report" then
    if ¬ truthy (getArg args "template_id") then
      DispatchOutcome.validationError "template_id is required"
    else
      DispatchOutcome.request "/api/2.0/fo/report/"
        (buildFormData
          [("action", JsVal.str "launch"),
           ("template_id", getArg args "template_id"),
           ("report_title", getArg args "report_title"),
           ("output_format", jsOr (getArg args "output_format") (JsVal.str "pdf")),
           ("ips", getArg args "ips"),
           ("asset_group_ids", getArg args "asset_group_ids")])
        formContentType RespMode.parseXml
  else if name = "qualys_download_report" then
    if ¬ truthy (getArg args "id") then
      DispatchOutcome.validationError "id is required"
    else
      DispatchOutcome.request "/api/2.0/fo/report/"
        (buildFormData
          [("action", JsVal.str "fetch"), ("id", getArg args "id")])
        formContentType RespMode.binaryReport
  else if name = "qualys_list_asset_groups" then
    DispatchOutcome.request "/api/2.0/fo/asset/group/"
      (buildFormData
        [("action", JsVal.str "list"),
         ("ids", getArg args "ids"),
         ("title", getArg args "title"),
         ("truncation_limit", jsOr (getArg args "truncation_limit") (JsVal.num 100))])
      formContentType RespMode.parseXml
  else if name = "qualys_get_knowledgebase" then
    DispatchOutcome.request "/api/2.0/fo/knowledge_base/vuln/"
      (buildFormData
        [("action", JsVal.str "list"),
         ("ids", getArg args "ids"),
         ("id_min", getArg args "id_min"),
         ("id_max", getArg args "id_max"),
         ("details", jsOr (getArg args "details") (JsVal.str "Basic")),
         ("last_modified_after", getArg args "last_modified_after"),
         ("last_modified_before", getArg args "last_modified_before"),
         ("published_after", getArg args "published_after"),
         ("published_before", getArg args "published_before"),
         ("show_qds", if truthy (getArg args "show_qds") then JsVal.str "1" else JsVal.str "0"),
         ("show_qds_factors", if truthy (getArg args "show_qds_factors") then JsVal.str "1" else JsVal.str "0"),
         ("show_pci_reasons", if truthy (getArg args "show_pci_reasons") then JsVal.str "1" else JsVal.str "0")])
      formContentType RespMode.parseXml
  else if name = "qualys_get_knowledgebase_by_cve" then
    DispatchOutcome.request "/api/2.0/fo/knowledge_base/vuln/"
      (buildFormData
        ([("action", JsVal.str "list")] ++
         (if truthy (getArg args "cve_ids") then [("cve_id", getArg args "cve_ids")] else []) ++
         (if getArg args "qvs_min" ≠ JsVal.undef then [("qvs_min", getArg args "qvs_min")] else []) ++
         (if getArg args "qvs_max" ≠ JsVal.undef then [("qvs_max", getArg args "qvs_max")] else []) ++
         (if truthy (getArg args "last_modified_within_days") then
            [("last_modified_after", JsVal.str (dc (getArg args "last_modified_within_days")))]
          else []) ++
         [("show_qds", if getArg args "show_qds" = JsVal.bool false then JsVal.str "0" else JsVal.str "1"),
          ("show_qds_factors", if truthy (getArg args "show_qds_factors") then JsVal.str "1" else JsVal.str "0")]))
      formContentType RespMode.parseXml
  else if name = "qualys_list_scanners" then
    DispatchOutcome.request "/api/2.0/fo/appliance/"
      (buildFormData
        [("action", JsVal.str "list"),
         ("type", getArg args "type"),
         ("status", getArg args "status")])
      formContentType RespMode.parseXml
  else if name = "qualys_list_option_profiles" then
    DispatchOutcome.request "/api/2.0/fo/subscription/option_profile/vm/"
      (buildFormData
        [("action", JsVal.str "list"), ("title", getArg args "title")])
      formContentType RespMode.parseXml
  else if name = "qualys_list_tags" then
    DispatchOutcome.request "/qps/rest/2.0/search/am/tag"
      (buildFormData [("action", JsVal.str "list")])
      "application/json" RespMode.rawPassthrough
  else if name = "qualys_get_activity_log" then
    DispatchOutcome.request "/api/2.0/fo/activity_log/"
      (buildFormData
        [("action", JsVal.str "list"),
         ("since_datetime", getArg args "since_datetime"),
         ("until_datetime", getArg args "until_datetime"),
         ("user_action", getArg args "action"),
         ("truncation_limit", jsOr (getArg args "truncation_limit") (JsVal.num 100))])
      formContentType RespMode.parseXml
  else
    DispatchOutcome.unknownTool name

/-- `handleToolCall` (src/index.ts lines 612-982) up to the network boundary:
the credential check runs before everything else; only when it passes is the
operation routed through the switch. -/
def planToolCall (dc : JsVal → String) (cfg : Config) (name : String) (args : Args) :
    DispatchOutcome :=
  match checkCredentials cfg with
  | some m => DispatchOutcome.configError m
  | none => routeToolCall dc name args

/-- A concrete date function for witnesses: every cutoff renders as a fixed day. -/
def dcW : JsVal → String := fun _ => "2024-01-01"

/-- A concrete configured-credentials environment for witnesses. -/
def cfgW : Config := ⟨"https://qualysapi.qualys.com", "user", "pw"⟩

/-- Modelled from the spec: a necessary condition for a string to be a JSON
text (the "JSON body" the spec says the tag-listing operation sends).  Every
JSON value begins, after optional insignificant whitespace, with one of
`\x7b [ " - t f n` or a digit; a string failing this test is not a JSON text. -/
def specJsonLeadOk (s : String) : Bool :=
  match s.data.dropWhile
      (fun c => c = Char.ofNat 32 || c = Char.ofNat 9 || c = Char.ofNat 10 || c = Char.ofNat 13) with
  | [] => false
  | c :: _ =>
    c = Char.ofNat 123 || c = Char.ofNat 91 || c = Char.ofNat 34 || c = Char.ofNat 45 ||
    c = Char.ofNat 116 || c = Char.ofNat 102 || c = Char.ofNat 110 ||
    (decide (48 ≤ c.toNat) && decide (c.toNat ≤ 57))

/-- Claim C2: for every flat key-to-optional-scalar mapping, `buildFormData`
drops every entry whose value is `undefined` or the empty string, renders each
remaining entry as `percentEncode(key) + "=" + percentEncode(String(value))`,
and joins the rendered entries with `&` in the insertion order of the input
mapping — i.e. it coincides with the spec-side Form Encoder contract
`specFormEncode`. -/
theorem buildFormData_matches_spec_encode (params : List (String × JsVal)) :
    buildFormData params = specFormEncode params := by
  unfold buildFormData specFormEncode
  congr 1
  induction params with
  | nil => rfl
  | cons kv rest ih =>
    obtain ⟨k, v⟩ := kv
    by_cases h1 : v = JsVal.undef
    · subst h1
      rw [List.filter_cons_of_neg (by simp), specFormEntries, if_pos (Or.inl rfl), ih]
    · by_cases h2 : v = JsVal.str ""
      · subst h2
        rw [List.filter_cons_of_neg (by simp), specFormEntries, if_pos (Or.inr rfl), ih]
      · rw [List.filter_cons_of_pos (by simp [h1, h2]), List.map_cons, specFormEntries,
          if_neg (by rw [not_or]; exact ⟨h1, h2⟩), ih]

/-- Claim C1 (code_bug evidence): the rate limiter does not keep the promised
1000 ms minimum gap between consecutive dispatch starts.  Three
`rateLimitedRequest` calls issued back-to-back in one event-loop tick at time
2000 ms with `lastRequestTime = 0` start at 2000, 3000 and 3000 ms: callers 2
and 3 both read the same stale `lastRequestTime` (the write on line 81 only
happens after the `setTimeout` sleep), wake at the same instant, and dispatch
with a 0 ms gap. -/
theorem rateLimiter_sameTick_gap_violation :
    sameTickStarts 0 2000 3 = [2000, 3000, 3000] ∧
    minGapOK (sameTickStarts 0 2000 3) = false := by decide

/-- Claim C4 (counterexample): the fallback `{raw: ...}` envelope is not
distinguishable from a successful parse by shape alone, and well-formed markup
can produce a `{raw: ...}` envelope: the well-formed document
`<raw>hello</raw>` parses successfully (no fallback) to the object
`{raw: "hello"}`, which has exactly the shape of the fallback envelope. -/
theorem parseXmlResponse_raw_shape_collision :
    specXmlParse "<raw>hello</raw>" = some (Json.obj [("raw", Json.str "hello")])
    ∧ parseXmlResponse "<raw>hello</raw>" = Json.obj [("raw", Json.str "hello")]
    ∧ isRawEnvelope (parseXmlResponse "<raw>hello</raw>") = true :=
  ⟨rfl, rfl, rfl⟩

/-- Claim C4 (amended): `parseXmlResponse` never raises (it is a total
function); on parse failure it returns exactly the `{raw: <original text>}`
envelope, and on parse success it returns the parsed structure unchanged —
which may itself be shaped like the fallback envelope, so the two cases are
not distinguishable by shape alone. -/
theorem parseXmlResponse_total_fallback (s : String) :
    (specXmlParse s = none → parseXmlResponse s = Json.obj [("raw", Json.str s)])
    ∧ (∀ v, specXmlParse s = some v → parseXmlResponse s = v) := by
  constructor
  · intro h
    simp [parseXmlResponse, h]
  · intro v h
    simp [parseXmlResponse, h]

/-- Witness for `parseXmlResponse_total_fallback` at the scenario given in the spec:
the malformed body `<unterminated` normalizes to `{raw: "<unterminated"}`. -/
theorem parseXmlResponse_total_fallback_witness :
    parseXmlResponse "<unterminated" = Json.obj [("raw", Json.str "<unterminated")] :=
  (parseXmlResponse_total_fallback "<unterminated").1 rfl

/-- Claim C5: for every operation name and every argument mapping, if the
configured username or password is empty, `handleToolCall` returns the fixed
configuration-error text, prefixed `Error: `, immediately, and performs zero
network calls. -/
theorem dispatch_missing_credentials (dc : JsVal → String) (cfg : Config)
    (name : String) (args : Args) (h : cfg.username = "" ∨ cfg.password = "") :
    planToolCall dc cfg name args = DispatchOutcome.configError credMsg
    ∧ netCalls (planToolCall dc cfg name args) = 0
    ∧ outcomeText (planToolCall dc cfg name args) = some ("Error: " ++ credMsg) := by
  have hc : checkCredentials cfg = some credMsg := by
    unfold checkCredentials
    rw [if_pos h]
  refine ⟨?_, ?_, ?_⟩ <;> simp [planToolCall, hc, netCalls, outcomeText]

/-- Witness for `dispatch_missing_credentials`: with an empty username, the
host-listing operation is answered by the configuration error and no request. -/
theorem dispatch_missing_credentials_witness :
    planToolCall dcW ⟨"https://qualysapi.qualys.com", "", "pw"⟩ "qualys_list_hosts" []
      = DispatchOutcome.configError credMsg :=
  (dispatch_missing_credentials dcW ⟨"https://qualysapi.qualys.com", "", "pw"⟩
    "qualys_list_hosts" [] (Or.inl rfl)).1

/-- Claim C7: with credentials configured, the scan-launch operation with no
(truthy) `scan_title`, or with a `scan_title` but none of `ip`,
`asset_groups`, `asset_group_ids`, returns the validation-error text naming
the missing field and issues zero network calls. -/
theorem launchScan_validation (dc : JsVal → String) (cfg : Config) (args : Args)
    (hu : cfg.username ≠ "") (hp : cfg.password ≠ "") :
    (¬ truthy (getArg args "scan_title") →
      planToolCall dc cfg "qualys_launch_scan" args
          = DispatchOutcome.validationError "scan_title is required"
      ∧ netCalls (planToolCall dc cfg "qualys_launch_scan" args) = 0
      ∧ outcomeText (planToolCall dc cfg "qualys_launch_scan" args)
          = some ("Error: Unknown Error: Error: scan_title is required"))
    ∧ (truthy (getArg args "scan_title") →
       ¬ truthy (getArg args "ip") →
       ¬ truthy (getArg args "asset_groups") →
       ¬ truthy (getArg args "asset_group_ids") →
      planToolCall dc cfg "qualys_launch_scan" args
          = DispatchOutcome.validationError
              "At least one of ip, asset_groups, or asset_group_ids is required"
      ∧ netCalls (planToolCall dc cfg "qualys_launch_scan" args) = 0
      ∧ outcomeText (planToolCall dc cfg "qualys_launch_scan" args)
          = some ("Error: Unknown Error: Error: At least one of ip, asset_groups, or asset_group_ids is required")) := by
  have hc : checkCredentials cfg = none := by
    unfold checkCredentials
    rw [if_neg (by rw [not_or]; exact ⟨hu, hp⟩)]
  constructor
  · intro h1
    refine ⟨?_, ?_, ?_⟩ <;>
      simp [planToolCall, hc, routeToolCall, h1, netCalls, outcomeText]
  · intro h1 h2 h3 h4
    refine ⟨?_, ?_, ?_⟩ <;>
      simp [planToolCall, hc, routeToolCall, h1, h2, h3, h4, netCalls, outcomeText]

/-- Witness for `launchScan_validation`: both validation branches at concrete
inputs — an empty argument map, and one carrying only a scan title. -/
theorem launchScan_validation_witness :
    planToolCall dcW cfgW "qualys_launch_scan" []
      = DispatchOutcome.validationError "scan_title is required"
    ∧ planToolCall dcW cfgW "qualys_launch_scan" [("scan_title", JsVal.str "T")]
      = DispatchOutcome.validationError
          "At least one of ip, asset_groups, or asset_group_ids is required" :=
  ⟨((launchScan_validation dcW cfgW [] (by decide) (by decide)).1 (by decide)).1,
   ((launchScan_validation dcW cfgW [("scan_title", JsVal.str "T")] (by decide) (by decide)).2
      (by decide) (by decide) (by decide) (by decide)).1⟩

/-- Claim C3: with credentials configured, the detection-listing operation
with arguments `ips = 10.0.0.1,10.0.0.2`, `severities = 4,5`,
`truncation_limit = 100` and all other arguments absent produces exactly the
claimed wire body, with keys in handler declaration order and the boolean
flags rendered `0`/`1`. -/
theorem hostDetections_wire_body (dc : JsVal → String) (cfg : Config)
    (hu : cfg.username ≠ "") (hp : cfg.password ≠ "") :
    planToolCall dc cfg "qualys_get_host_detections"
      [("ips", JsVal.str "10.0.0.1,10.0.0.2"), ("severities", JsVal.str "4,5"),
       ("truncation_limit", JsVal.num 100)]
      = DispatchOutcome.request "/api/2.0/fo/asset/host/vm/detection/"
          "action=list&ips=10.0.0.1%2C10.0.0.2&severities=4%2C5&truncation_limit=100&show_igs=0&show_epss=0"
          formContentType RespMode.parseXml := by
  have hc : checkCredentials cfg = none := by
    unfold checkCredentials
    rw [if_neg (by rw [not_or]; exact ⟨hu, hp⟩)]
  simp only [planToolCall, hc]
  rfl

/-- Witness for `hostDetections_wire_body` at a concrete configured
environment. -/
theorem hostDetections_wire_body_witness :
    planToolCall dcW cfgW "qualys_get_host_detections"
      [("ips", JsVal.str "10.0.0.1,10.0.0.2"), ("severities", JsVal.str "4,5"),
       ("truncation_limit", JsVal.num 100)]
      = DispatchOutcome.request "/api/2.0/fo/asset/host/vm/detection/"
          "action=list&ips=10.0.0.1%2C10.0.0.2&severities=4%2C5&truncation_limit=100&show_igs=0&show_epss=0"
          formContentType RespMode.parseXml :=
  hostDetections_wire_body dcW cfgW (by decide) (by decide)

/-- Claim C10: with credentials configured, the report-download operation with
the number `0` supplied as `id` returns the validation-error text
`id is required` and issues zero network calls — the required-argument check
`!args.id` tests JavaScript truthiness, so `0` counts as absent. -/
theorem downloadReport_zero_id_falsy (dc : JsVal → String) (cfg : Config)
    (hu : cfg.username ≠ "") (hp : cfg.password ≠ "") :
    planToolCall dc cfg "qualys_download_report" [("id", JsVal.num 0)]
      = DispatchOutcome.validationError "id is required"
    ∧ netCalls (planToolCall dc cfg "qualys_download_report" [("id", JsVal.num 0)]) = 0
    ∧ outcomeText (planToolCall dc cfg "qualys_download_report" [("id", JsVal.num 0)])
        = some ("Error: Unknown Error: Error: id is required") := by
  have hc : checkCredentials cfg = none := by
    unfold checkCredentials
    rw [if_neg (by rw [not_or]; exact ⟨hu, hp⟩)]
  simp only [planToolCall, hc]
  refine ⟨rfl, rfl, rfl⟩

/-- Witness for `downloadReport_zero_id_falsy` at a concrete configured
environment. -/
theorem downloadReport_zero_id_falsy_witness :
    planToolCall dcW cfgW "qualys_download_report" [("id", JsVal.num 0)]
      = DispatchOutcome.validationError "id is required" :=
  (downloadReport_zero_id_falsy dcW cfgW (by decide) (by decide)).1

/-- Claim C9 (counterexample): the tag-listing request body is the
form-encoded string `action=list`, which is not a JSON text (no JSON value
begins with the letter `a`), refuting the claim that the operation sends a
JSON request body. -/
theorem listTags_body_not_json :
    planToolCall dcW cfgW "qualys_list_tags" []
      = DispatchOutcome.request "/qps/rest/2.0/search/am/tag" "action=list"
          "application/json" RespMode.rawPassthrough
    ∧ specJsonLeadOk "action=list" = false := by
  refine ⟨by decide, by decide⟩

/-- Claim C9 (amended): the tag-listing operation is the single deviation
from the uniform wire convention: for every argument mapping it posts to the
path `/qps/rest/2.0/search/am/tag` (a different path family), with the
Content-Type header `application/json` — but the body it sends is the
form-encoded string `action=list`, not a JSON document — and it returns the
response body directly, bypassing the Response Normalizer. -/
theorem listTags_exception_route (dc : JsVal → String) (cfg : Config) (args : Args)
    (hu : cfg.username ≠ "") (hp : cfg.password ≠ "") :
    planToolCall dc cfg "qualys_list_tags" args
      = DispatchOutcome.request "/qps/rest/2.0/search/am/tag"
          (buildFormData [("action", JsVal.str "list")])
          "application/json" RespMode.rawPassthrough
    ∧ buildFormData [("action", JsVal.str "list")] = "action=list" := by
  have hc : checkCredentials cfg = none := by
    unfold checkCredentials
    rw [if_neg (by rw [not_or]; exact ⟨hu, hp⟩)]
  simp only [planToolCall, hc]
  exact ⟨rfl, by decide⟩

/-- Witness for `listTags_exception_route` at a concrete configured
environment. -/
theorem listTags_exception_route_witness :
    planToolCall dcW cfgW "qualys_list_tags" []
      = DispatchOutcome.request "/qps/rest/2.0/search/am/tag"
          (buildFormData [("action", JsVal.str "list")])
          "application/json" RespMode.rawPassthrough :=
  (listTags_exception_route dcW cfgW [] (by decide) (by decide)).1

/-- Claim C6: `handleApiError` applies its decision table in priority order —
a failure carrying an upstream HTTP response renders status code, status text
and the serialized response body (so a 401 response yields a string
containing `401`); a connection-refused failure without a response yields the
fixed message naming the configured endpoint variable; any other axios
failure yields its own message under the `Request Error: ` prefix; and any
other value yields its string coercion under the distinct
`Unknown Error: ` prefix. -/
theorem handleApiError_decision_table (st : Nat) (stTxt : String) (d : Json)
    (code : Option String) (msg other : String) :
    handleApiError (JsFailure.axios (some ⟨st, stTxt, d⟩) code msg)
        = "API Error: " ++ toString st ++ " - " ++ stTxt ++ ". " ++ Json.stringify d
    ∧ handleApiError (JsFailure.axios (some ⟨401, "Unauthorized", Json.str "denied"⟩) none "m")
        = "API Error: 401 - Unauthorized. \"denied\""
    ∧ handleApiError (JsFailure.axios none (some "ECONNREFUSED") msg)
        = "Connection refused. Check your QUALYS_API_URL configuration."
    ∧ (code ≠ some "ECONNREFUSED" →
        handleApiError (JsFailure.axios none code msg) = "Request Error: " ++ msg)
    ∧ handleApiError (JsFailure.other other) = "Unknown Error: " ++ other
    ∧ ("Unknown Error: " : String) ≠ ("Request Error: " : String) :=
  ⟨rfl, by decide, rfl, fun h => by simp [handleApiError, h], rfl, by decide⟩

/-- Witness for `handleApiError_decision_table`: a transport failure that is
not a connection refusal is rendered with the request-error prefix. -/
theorem handleApiError_decision_table_witness :
    handleApiError (JsFailure.axios none (some "ETIMEDOUT") "timeout of 120000ms exceeded")
      = "Request Error: " ++ "timeout of 120000ms exceeded" :=
  (handleApiError_decision_table 500 "ISE" Json.nul (some "ETIMEDOUT")
    "timeout of 120000ms exceeded" "x").2.2.2.1 (by decide)

/-- Claim C8: `getApiClient` is idempotent.  Starting from the module-load
state, the first call constructs the client (base URL from the configuration,
the Basic credential digest computed from the username/password pair, the
pooled agents and the 120000 ms timeout) and caches it together with the auth
header; a second call under any configuration — including changed
credentials — returns the identical handle and leaves the state untouched,
so the authorization header is computed at most once. -/
theorem getApiClient_singleton (cfg cfg2 : Config) :
    getApiClient cfg2 (getApiClient cfg initialConnState).2 = getApiClient cfg initialConnState
    ∧ (getApiClient cfg initialConnState).2.apiClient = some (getApiClient cfg initialConnState).1
    ∧ (getApiClient cfg initialConnState).1.baseURL = cfg.apiUrl
    ∧ (getApiClient cfg initialConnState).1.timeoutMs = 120000
    ∧ (getApiClient cfg initialConnState).1.httpAgentCfg = httpAgent
    ∧ (getApiClient cfg initialConnState).1.httpsAgentCfg = httpsAgent
    ∧ (getApiClient cfg initialConnState).1.authorization
        = (if cfg.username ≠ "" ∧ cfg.password ≠ ""
           then basicAuthHeader cfg.username cfg.password else "")
    ∧ (getApiClient cfg initialConnState).2.cachedAuthHeader
        = (if cfg.username ≠ "" ∧ cfg.password ≠ ""
           then some (basicAuthHeader cfg.username cfg.password) else none) := by
  by_cases h : cfg.username ≠ "" ∧ cfg.password ≠ "" <;>
    simp [getApiClient, initialConnState, h]
